import Mathlib

/-!
Shallow embedding of the reconciliation and naming core of the
`cloudflare-pages-action` repository (`lib/pages.mjs`, `lib/workers.mjs`,
`lib/utils.mjs`), together with theorems settling the specification claims.

JavaScript strings are modelled by Lean `String` (a wrapper around
`List Char`); machine-level details (UTF-16 vs UTF-8) are irrelevant to the
claims.  Remote API calls and local side effects are modelled as explicit
event traces; the remote state consulted by the code is passed in as input.
-/

/-- Model of one step of the regex replace in `branch.replace(/\//g, '-')`:
a single character is replaced by `-` when it is `/`, kept otherwise. -/
def replaceSlash (c : Char) : Char :=
  if c = '/' then '-' else c

/-- Model of `branch.replace(/\//g, '-')` from `normalizeBranchName`
(`lib/utils.mjs`): every `/` becomes `-`. -/
def jsReplaceSlashes (s : String) : String :=
  ⟨s.data.map replaceSlash⟩

/-- Model of JavaScript `.toLowerCase()` as used on branch names: each
character is lowered with `Char.toLower` (basic-latin lowering; branch names
relevant to the claims are ASCII). -/
def jsToLowerCase (s : String) : String :=
  ⟨s.data.map Char.toLower⟩

/-- `normalizeBranchName` from `lib/utils.mjs`: replace `/` with `-`, then
lower-case. -/
def normalizeBranchName (branch : String) : String :=
  jsToLowerCase (jsReplaceSlashes branch)

/-- `isProduction` from `lib/utils.mjs`: exact string comparison
`branch === productionBranch`. -/
def isProduction (branch productionBranch : String) : Bool :=
  branch == productionBranch

/-- `getWorkerName` from `lib/utils.mjs`: the base name on the production
branch, otherwise `` `${normalizedBranch}-${baseName}` ``. -/
def getWorkerName (baseName branch productionBranch : String) : String :=
  if isProduction branch productionBranch then baseName
  else normalizeBranchName branch ++ "-" ++ baseName

/-! ### Character-level lemmas about the lowering used by normalization -/

theorem toLower_toNat_of_upper (c : Char) (h : 65 ≤ c.toNat ∧ c.toNat ≤ 90) :
    (Char.toLower c).toNat = c.toNat + 32 := by
  unfold Char.toLower
  rw [if_pos h]
  obtain ⟨h1, h2⟩ := h
  generalize hn : c.toNat = n at h1 h2
  interval_cases n <;> decide

theorem toLower_eq_of_not_upper (c : Char) (h : ¬(65 ≤ c.toNat ∧ c.toNat ≤ 90)) :
    Char.toLower c = c := by
  show (if c.toNat ≥ 65 ∧ c.toNat ≤ 90 then Char.ofNat (c.toNat + 32) else c) = c
  rw [if_neg h]

theorem toLower_idem (c : Char) : Char.toLower (Char.toLower c) = Char.toLower c := by
  by_cases h : 65 ≤ c.toNat ∧ c.toNat ≤ 90
  · have h1 := toLower_toNat_of_upper c h
    apply toLower_eq_of_not_upper
    omega
  · rw [toLower_eq_of_not_upper c h]
    exact toLower_eq_of_not_upper c h

theorem toLower_ne_slash (c : Char) (h : c ≠ '/') : Char.toLower c ≠ '/' := by
  by_cases hu : 65 ≤ c.toNat ∧ c.toNat ≤ 90
  · have h1 := toLower_toNat_of_upper c hu
    intro he
    rw [he] at h1
    have h47 : ('/' : Char).toNat = 47 := by decide
    omega
  · rw [toLower_eq_of_not_upper c hu]
    exact h

theorem replaceSlash_ne_slash (c : Char) : replaceSlash c ≠ '/' := by
  unfold replaceSlash
  by_cases h : c = '/'
  · rw [if_pos h]; decide
  · rw [if_neg h]; exact h

theorem replaceSlash_eq_of_ne (c : Char) (h : c ≠ '/') : replaceSlash c = c := by
  unfold replaceSlash
  rw [if_neg h]

theorem normalize_char_idem (c : Char) :
    Char.toLower (replaceSlash (Char.toLower (replaceSlash c))) =
      Char.toLower (replaceSlash c) := by
  rw [replaceSlash_eq_of_ne _ (toLower_ne_slash _ (replaceSlash_ne_slash c)), toLower_idem]

theorem normalize_list_idem (l : List Char) :
    (((l.map replaceSlash).map Char.toLower).map replaceSlash).map Char.toLower =
      (l.map replaceSlash).map Char.toLower := by
  induction l with
  | nil => rfl
  | cons c cs ih => simp only [List.map_cons, ih, normalize_char_idem]

/-- C9: branch normalization is idempotent:
`normalize(normalize(b)) == normalize(b)` for every branch string `b`. -/
theorem normalizeBranchName_idem (b : String) :
    normalizeBranchName (normalizeBranchName b) = normalizeBranchName b :=
  congrArg String.mk (normalize_list_idem b.data)

/-- C3: on the production branch the deployment identity is the base name
exactly; on any other branch it is `normalize(branch) + "-" + base`; and
`getWorkerName base b b = base` for all `base`, `b`. -/
theorem getWorkerName_spec (base branch prod : String) :
    (branch = prod → getWorkerName base branch prod = base)
    ∧ (branch ≠ prod → getWorkerName base branch prod =
        normalizeBranchName branch ++ "-" ++ base)
    ∧ getWorkerName base branch branch = base := by
  refine ⟨fun h => ?_, fun h => ?_, ?_⟩
  · simp [getWorkerName, isProduction, h]
  · simp [getWorkerName, isProduction, h]
  · simp [getWorkerName, isProduction]

/-- Witness for C3 at concrete inputs, matching the repository's own unit
tests for `getWorkerName`. -/
theorem getWorkerName_spec_witness :
    getWorkerName "my-worker" "main" "main" = "my-worker"
    ∧ getWorkerName "api" "feature/auth" "main" =
        normalizeBranchName "feature/auth" ++ "-" ++ "api" :=
  ⟨(getWorkerName_spec "my-worker" "main" "main").1 rfl,
   (getWorkerName_spec "api" "feature/auth" "main").2.1 (by decide)⟩

/-! ### Binding translation (`buildBindings`, `lib/workers.mjs`) -/

/-- A JavaScript value appearing as an environment-variable or secret value:
either a string or a number (the two shapes the code and its tests use). -/
inductive JsVal where
  | str : String → JsVal
  | num : Int → JsVal
deriving DecidableEq

/-- Model of JavaScript `String(value)` applied to a binding value. -/
def jsString : JsVal → String
  | .str s => s
  | .num n => toString n

/-- A `kv_namespaces` entry: `{ binding, id }`. -/
structure KvRef where
  binding : String
  id : String
deriving DecidableEq

/-- A `d1_databases` entry: `{ binding, database_id }`. -/
structure D1Ref where
  binding : String
  database_id : String
deriving DecidableEq

/-- An `r2_buckets` entry: `{ binding, bucket_name }`. -/
structure R2Ref where
  binding : String
  bucket_name : String
deriving DecidableEq

/-- The `bindings` object of the worker configuration.  Each sub-collection
is optional (`bindingsConfig?.xyz` in the code); object key order is the
entry-list order. -/
structure BindingsConfig where
  environment_variables : Option (List (String × JsVal))
  kv_namespaces : Option (List KvRef)
  d1_databases : Option (List D1Ref)
  r2_buckets : Option (List R2Ref)
deriving DecidableEq

/-- One record of the output bindings array, tagged by its `type` field. -/
inductive Binding where
  | plain_text : String → String → Binding
  | secret_text : String → String → Binding
  | kv_namespace : String → String → Binding
  | d1 : String → String → Binding
  | r2_bucket : String → String → Binding
deriving DecidableEq

/-- `buildBindings` from `lib/workers.mjs`: pushes environment variables,
then secrets, then KV namespaces, then D1 databases, then R2 buckets. -/
def buildBindings (bindingsConfig : Option BindingsConfig)
    (secrets : Option (List (String × JsVal))) : List Binding :=
  ((bindingsConfig.bind BindingsConfig.environment_variables).getD []).map
      (fun nv => Binding.plain_text nv.1 (jsString nv.2))
    ++ (secrets.getD []).map (fun nv => Binding.secret_text nv.1 (jsString nv.2))
    ++ ((bindingsConfig.bind BindingsConfig.kv_namespaces).getD []).map
      (fun kv => Binding.kv_namespace kv.binding kv.id)
    ++ ((bindingsConfig.bind BindingsConfig.d1_databases).getD []).map
      (fun d1 => Binding.d1 d1.binding d1.database_id)
    ++ ((bindingsConfig.bind BindingsConfig.r2_buckets).getD []).map
      (fun r2 => Binding.r2_bucket r2.binding r2.bucket_name)

/-- The environment-variable segment of the output, for stating order. -/
def envBindings (bindingsConfig : Option BindingsConfig) : List Binding :=
  ((bindingsConfig.bind BindingsConfig.environment_variables).getD []).map
    (fun nv => Binding.plain_text nv.1 (jsString nv.2))

/-- The secret segment of the output, for stating order. -/
def secretBindings (secrets : Option (List (String × JsVal))) : List Binding :=
  (secrets.getD []).map (fun nv => Binding.secret_text nv.1 (jsString nv.2))

/-- The KV-namespace segment of the output, for stating order. -/
def kvBindings (bindingsConfig : Option BindingsConfig) : List Binding :=
  ((bindingsConfig.bind BindingsConfig.kv_namespaces).getD []).map
    (fun kv => Binding.kv_namespace kv.binding kv.id)

/-- The D1-database segment of the output, for stating order. -/
def d1Bindings (bindingsConfig : Option BindingsConfig) : List Binding :=
  ((bindingsConfig.bind BindingsConfig.d1_databases).getD []).map
    (fun d1 => Binding.d1 d1.binding d1.database_id)

/-- The R2-bucket segment of the output, for stating order. -/
def r2Bindings (bindingsConfig : Option BindingsConfig) : List Binding :=
  ((bindingsConfig.bind BindingsConfig.r2_buckets).getD []).map
    (fun r2 => Binding.r2_bucket r2.binding r2.bucket_name)

/-- Total number of entries across the five binding sources. -/
def bindingEntryCount (bindingsConfig : Option BindingsConfig)
    (secrets : Option (List (String × JsVal))) : Nat :=
  ((bindingsConfig.bind BindingsConfig.environment_variables).getD []).length
    + (secrets.getD []).length
    + ((bindingsConfig.bind BindingsConfig.kv_namespaces).getD []).length
    + ((bindingsConfig.bind BindingsConfig.d1_databases).getD []).length
    + ((bindingsConfig.bind BindingsConfig.r2_buckets).getD []).length

/-- A bindings object declaring only environment variables. -/
def envOnly (l : List (String × JsVal)) : BindingsConfig :=
  { environment_variables := some l
    kv_namespaces := none
    d1_databases := none
    r2_buckets := none }

/-- C7: binding translation is a pure function of the binding specification
and the secrets map; on `{environment_variables:{API_URL:"https://x"}}` with
secrets `{API_KEY:"k"}` the output is exactly the `plain_text` and
`secret_text` records in that order; numeric values are coerced via
`String(value)` (`3000 → "3000"`); and the output is always the
environment-variable segment, then secrets, then KV, then D1, then R2. -/
theorem buildBindings_spec :
    buildBindings (some (envOnly [("API_URL", JsVal.str "https://x")]))
        (some [("API_KEY", JsVal.str "k")]) =
      [Binding.plain_text "API_URL" "https://x", Binding.secret_text "API_KEY" "k"]
    ∧ buildBindings (some (envOnly [("PORT", JsVal.num 3000)])) none =
      [Binding.plain_text "PORT" "3000"]
    ∧ ∀ bindingsConfig secrets,
        buildBindings bindingsConfig secrets =
          envBindings bindingsConfig ++ secretBindings secrets
            ++ kvBindings bindingsConfig ++ d1Bindings bindingsConfig
            ++ r2Bindings bindingsConfig :=
  ⟨by decide, by decide, fun _ _ => rfl⟩

/-- C10: `buildBindings` never deduplicates: the output has exactly one
record per input entry (its length is the total entry count), and a name
declared both as an environment variable and as a secret yields two records
with that name. -/
theorem buildBindings_no_dedup :
    (∀ bindingsConfig secrets,
        (buildBindings bindingsConfig secrets).length =
          bindingEntryCount bindingsConfig secrets)
    ∧ buildBindings (some (envOnly [("API_KEY", JsVal.str "v1")]))
        (some [("API_KEY", JsVal.str "k")]) =
      [Binding.plain_text "API_KEY" "v1", Binding.secret_text "API_KEY" "k"] := by
  refine ⟨fun bindingsConfig secrets => ?_, by decide⟩
  simp [buildBindings, bindingEntryCount]
  omega

/-! ### Project reconciliation (`syncPages`, `lib/pages.mjs`)

The remote accessor is modelled by passing in the result of the initial
lookup (`client.pages.projects.get`) and recording the mutating calls
(`create` / `edit` / `delete`) as an event trace.  `process.exit(1)` is a
distinct outcome. -/

/-- The `repo` object of the declared configuration. -/
structure RepoCfg where
  owner : String
  name : String
deriving DecidableEq

/-- The declared `build` object; each field may be missing. -/
structure BuildCfgIn where
  command : Option String
  output : Option String
  root : Option String
deriving DecidableEq

/-- The declared `preview` object; each field may be missing. -/
structure PreviewCfg where
  branches : Option (List String)
  exclude : Option (List String)
deriving DecidableEq

/-- The declared `worker` object of `cloudflare.json`.  `syncWorker` never
reads the `name` field; it is carried here because the configuration
declares it. -/
structure WorkerCfg where
  name : Option String
  main : String
  build_command : Option String
  compatibility_date : String
  compatibility_flags : Option (List String)
  deploy_previews : Option Bool
  bindings : Option BindingsConfig
deriving DecidableEq

/-- The full `cloudflare.json` configuration object after defaulting. -/
structure CloudflareConfig where
  name : String
  production_branch : String
  repo : RepoCfg
  build : Option BuildCfgIn
  preview : Option PreviewCfg
  worker : Option WorkerCfg
deriving DecidableEq

/-- The remote project record returned by `client.pages.projects.get`:
`source` holds `source?.type` (`none` models a null/absent source), and
`subdomain` the platform-assigned subdomain when present. -/
structure RemoteProject where
  name : String
  source : Option String
  subdomain : Option String
deriving DecidableEq

/-- JavaScript `x || d` for an optional string field: the default is used
when the field is missing or empty (falsy). -/
def jsOrStr (o : Option String) (d : String) : String :=
  match o with
  | some s => if s = "" then d else s
  | none => d

/-- The inner `config` object of the GitHub source configuration built by
`syncPages`. -/
structure SourceCfgInner where
  owner : String
  repo_name : String
  production_branch : String
  deployments_enabled : Bool
  production_deployments_enabled : Bool
  preview_deployment_setting : String
  preview_branch_includes : List String
  preview_branch_excludes : List String
deriving DecidableEq

/-- The `sourceConfig` object built by `syncPages`. -/
structure SourceConfig where
  type : String
  config : SourceCfgInner
deriving DecidableEq

/-- The `buildConfig` object built by `syncPages`. -/
structure BuildConfig where
  build_command : String
  destination_dir : String
  root_dir : String
deriving DecidableEq

/-- Arguments of `client.pages.projects.create`. -/
structure CreateArgs where
  account_id : String
  name : String
  production_branch : String
  source : SourceConfig
  build_config : BuildConfig
deriving DecidableEq

/-- Arguments of `client.pages.projects.edit` (the Lean `Unit` stands for
the constant `deployment_configs: { preview: {}, production: {} }`). -/
structure EditArgs where
  account_id : String
  production_branch : String
  source : SourceConfig
  build_config : BuildConfig
  deployment_configs : Unit
deriving DecidableEq

/-- One mutating remote call issued by `syncPages`. -/
inductive PagesCall where
  | create : CreateArgs → PagesCall
  | edit : String → EditArgs → PagesCall
  | delete : String → String → PagesCall
deriving DecidableEq

/-- How `syncPages` terminates: normally with the returned `pagesUrl`, or by
`process.exit` with a status code. -/
inductive PagesOutcome where
  | ok : String → PagesOutcome
  | exited : Nat → PagesOutcome
deriving DecidableEq

/-- The `sourceConfig` value of `syncPages`: a GitHub source built from the
declared configuration (`config.preview?.branches || ['*']` defaults only on
a missing list, since a present array is always truthy). -/
def mkSourceConfig (c : CloudflareConfig) : SourceConfig :=
  { type := "github"
    config :=
      { owner := c.repo.owner
        repo_name := c.repo.name
        production_branch := c.production_branch
        deployments_enabled := true
        production_deployments_enabled := true
        preview_deployment_setting := "all"
        preview_branch_includes := (c.preview.bind PreviewCfg.branches).getD ["*"]
        preview_branch_excludes := (c.preview.bind PreviewCfg.exclude).getD [] } }

/-- The `buildConfig` value of `syncPages`:
`config.build?.command || ''`, `config.build?.output || '.'`,
`config.build?.root || ''`. -/
def mkBuildConfig (b : Option BuildCfgIn) : BuildConfig :=
  { build_command := jsOrStr (b.bind BuildCfgIn.command) ""
    destination_dir := jsOrStr (b.bind BuildCfgIn.output) "."
    root_dir := jsOrStr (b.bind BuildCfgIn.root) "" }

/-- Arguments of the `create` call issued by `syncPages`. -/
def mkCreateArgs (accountId : String) (c : CloudflareConfig) : CreateArgs :=
  { account_id := accountId
    name := c.name
    production_branch := c.production_branch
    source := mkSourceConfig c
    build_config := mkBuildConfig c.build }

/-- The `pagesUrl` value built by `syncPages`:
`` `https://${config.name}.pages.dev` ``. -/
def fallbackPagesUrl (name : String) : String :=
  "https://" ++ name ++ ".pages.dev"

/-- `syncPages` from `lib/pages.mjs`, given the result of the initial
`get` lookup (`none` models the 404 path): returns the trace of mutating
calls and the outcome.  The returned URL is always
`` `https://${config.name}.pages.dev` ``; the function performs no
follow-up `get` after its mutating call. -/
def syncPages (accountId : String) (c : CloudflareConfig) (allowRecreate : Bool)
    (existingProject : Option RemoteProject) : List PagesCall × PagesOutcome :=
  let sourceConfig := mkSourceConfig c
  let buildConfig := mkBuildConfig c.build
  let pagesUrl := fallbackPagesUrl c.name
  match existingProject with
  | some p =>
    if ¬(p.source = some "github") then
      if ¬allowRecreate then
        ([], .exited 1)
      else
        ([.delete c.name accountId,
          .create { account_id := accountId, name := c.name
                    production_branch := c.production_branch
                    source := sourceConfig, build_config := buildConfig }],
         .ok pagesUrl)
    else
      ([.edit c.name { account_id := accountId
                       production_branch := c.production_branch
                       source := sourceConfig, build_config := buildConfig
                       deployment_configs := () }],
       .ok pagesUrl)
  | none =>
    ([.create { account_id := accountId, name := c.name
                production_branch := c.production_branch
                source := sourceConfig, build_config := buildConfig }],
     .ok pagesUrl)

/-- Modelled from the spec: the resulting-URL rule of the reconciler that the
repository's test suite exercises but whose implementation is absent from
the sources at hand — the URL is built from the authoritative `subdomain`
of the record re-fetched after the mutating call, falling back to
`https://<display-name>.pages.dev` when that record carries no subdomain. -/
def specResultUrl (refetched : RemoteProject) (displayName : String) : String :=
  match refetched.subdomain with
  | some s => "https://" ++ s
  | none => fallbackPagesUrl displayName

/-- The test suite's `baseConfig` for the Pages reconciler. -/
def examplePagesConfig : CloudflareConfig :=
  { name := "my-project"
    production_branch := "main"
    repo := { owner := "myorg", name := "myrepo" }
    build := some { command := some "npm run build", output := some "dist", root := some "" }
    preview := some { branches := some ["*"], exclude := some [] }
    worker := none }

/-- The record the test suite has the remote report after the mutating call:
it carries the authoritative subdomain `custom-prefix-my-project.pages.dev`. -/
def refetchedRecord : RemoteProject :=
  { name := "my-project"
    source := some "github"
    subdomain := some "custom-prefix-my-project.pages.dev" }

/-- C1 (failing input): on the not-found path `syncPages` creates the
project and returns the fallback URL `https://my-project.pages.dev` without
any follow-up lookup, even though the record re-fetched after the mutation
would carry the authoritative subdomain, from which the spec (and the
repository's test `should use subdomain from API response for URL`) builds
`https://custom-prefix-my-project.pages.dev`. -/
theorem syncPages_url_ignores_refetched_subdomain :
    syncPages "account-id" examplePagesConfig false none =
      ([PagesCall.create (mkCreateArgs "account-id" examplePagesConfig)],
        PagesOutcome.ok "https://my-project.pages.dev")
    ∧ specResultUrl refetchedRecord "my-project" =
        "https://custom-prefix-my-project.pages.dev"
    ∧ ("https://my-project.pages.dev" : String) ≠
        "https://custom-prefix-my-project.pages.dev" :=
  ⟨rfl, rfl, by decide⟩

/-- C4: an existing project whose source is not the GitHub integration
(including a null/absent source) with `allowRecreate = false` makes
`syncPages` terminate with exit status 1 issuing no mutating call at all. -/
theorem syncPages_abort_without_recreate (accountId : String)
    (c : CloudflareConfig) (p : RemoteProject) (h : p.source ≠ some "github") :
    syncPages accountId c false (some p) = ([], PagesOutcome.exited 1) := by
  simp [syncPages, h]

/-- Witness for C4: a `direct_upload` project without recreate authorization. -/
theorem syncPages_abort_without_recreate_witness :
    syncPages "account-id" examplePagesConfig false
        (some { name := "my-project", source := some "direct_upload", subdomain := none }) =
      ([], PagesOutcome.exited 1) :=
  syncPages_abort_without_recreate "account-id" examplePagesConfig
    { name := "my-project", source := some "direct_upload", subdomain := none } (by decide)

/-- C5: an existing project whose source is not the GitHub integration with
`allowRecreate = true` makes `syncPages` issue exactly `delete` (with the
project name) and then `create` (with the desired GitHub source and build
config), in that order, with no `edit`. -/
theorem syncPages_delete_then_create_with_recreate (accountId : String)
    (c : CloudflareConfig) (p : RemoteProject) (h : p.source ≠ some "github") :
    syncPages accountId c true (some p) =
      ([PagesCall.delete c.name accountId,
        PagesCall.create (mkCreateArgs accountId c)],
       PagesOutcome.ok (fallbackPagesUrl c.name)) := by
  simp [syncPages, h, mkCreateArgs]

/-- Witness for C5: the `direct_upload` project is deleted, then recreated. -/
theorem syncPages_delete_then_create_with_recreate_witness :
    syncPages "account-id" examplePagesConfig true
        (some { name := "my-project", source := some "direct_upload", subdomain := none }) =
      ([PagesCall.delete "my-project" "account-id",
        PagesCall.create (mkCreateArgs "account-id" examplePagesConfig)],
       PagesOutcome.ok (fallbackPagesUrl "my-project")) :=
  syncPages_delete_then_create_with_recreate "account-id" examplePagesConfig
    { name := "my-project", source := some "direct_upload", subdomain := none } (by decide)

/-- C6: on the not-found path `syncPages` issues exactly one `create` whose
build config is the straight field mapping — declared command to
`build_command` (empty if unset), declared output to `destination_dir`
(default `.`), declared root to `root_dir` (default empty); in particular
`{command:"npm run build", output:"dist", root:""}` maps to
`{build_command:"npm run build", destination_dir:"dist", root_dir:""}`. -/
theorem syncPages_create_build_mapping :
    (∀ accountId c allowRecreate,
        syncPages accountId c allowRecreate none =
          ([PagesCall.create (mkCreateArgs accountId c)],
           PagesOutcome.ok (fallbackPagesUrl c.name)))
    ∧ mkBuildConfig (some { command := some "npm run build", output := some "dist", root := some "" }) =
        { build_command := "npm run build", destination_dir := "dist", root_dir := "" }
    ∧ mkBuildConfig none =
        { build_command := "", destination_dir := ".", root_dir := "" }
    ∧ mkBuildConfig (some { command := none, output := none, root := none }) =
        { build_command := "", destination_dir := ".", root_dir := "" } :=
  ⟨fun _ _ _ => rfl, by decide, by decide, by decide⟩

/-! ### Worker publication (`syncWorker`, `lib/workers.mjs`)

The local filesystem read, the build subprocess and the remote upload are
modelled by an environment record supplying their results and by an event
trace recording their invocations. -/

/-- Model of `path.basename` on the entry-point path: the part after the
last `/` (the paths the code handles carry no trailing separator). -/
def basenameAux : List Char → List Char → List Char
  | [], acc => acc.reverse
  | c :: cs, acc => if c = '/' then basenameAux cs [] else basenameAux cs (c :: acc)

/-- `basename(workerConfig.main)` as used for `main_module`. -/
def basename (p : String) : String :=
  ⟨basenameAux p.data []⟩

/-- JavaScript truthiness of an optional string field
(`if (workerConfig.build_command)`): false when missing or empty. -/
def jsTruthyOptStr : Option String → Bool
  | some s => s != ""
  | none => false

/-- The `metadata` object submitted with the script upload. -/
structure WorkerMetadata where
  main_module : String
  compatibility_date : String
  compatibility_flags : List String
  bindings : List Binding
deriving DecidableEq

/-- Arguments of `client.workers.scripts.update`: account, metadata, and the
single script file (its name and content). -/
structure UploadArgs where
  account_id : String
  metadata : WorkerMetadata
  fileName : String
  fileContent : String
deriving DecidableEq

/-- The value returned by `syncWorker` on the publishing path. -/
structure WorkerResult where
  workerName : String
  workerUrl : String
deriving DecidableEq

/-- One observable side effect of `syncWorker`, in program order. -/
inductive WorkerEvent where
  | runBuild : String → String → WorkerEvent
  | readScript : String → WorkerEvent
  | upload : String → UploadArgs → WorkerEvent
  | getSubdomain : WorkerEvent
deriving DecidableEq

/-- Results the environment supplies to `syncWorker`: whether the build
subprocess succeeds, the outcome of reading the entry-point file, and the
account's `workers.dev` subdomain. -/
structure WorkerEnv where
  buildOk : Bool
  readResult : Except String String
  subdomain : String

/-- How `syncWorker` terminates: normally (`none` models the skip paths that
return `null`), or by a propagated error. -/
inductive WorkerOutcome where
  | ok : Option WorkerResult → WorkerOutcome
  | error : String → WorkerOutcome
deriving DecidableEq

/-- The build events of `syncWorker`: `runBuild` is invoked only when a
build command is declared and truthy. -/
def workerBuildEvents (w : WorkerCfg) (workingDir : String) : List WorkerEvent :=
  if jsTruthyOptStr w.build_command then
    [WorkerEvent.runBuild (w.build_command.getD "") workingDir]
  else []

/-- `syncWorker` from `lib/workers.mjs`: skips when no worker is configured
or previews are disabled off the production branch; otherwise builds, reads
the entry point, uploads the script under
`getWorkerName(config.name, branch, config.production_branch)`, queries the
subdomain and returns the name and URL. -/
def syncWorker (accountId : String) (c : CloudflareConfig) (branch : String)
    (secrets : Option (List (String × JsVal))) (workingDir : String)
    (env : WorkerEnv) : List WorkerEvent × WorkerOutcome :=
  match c.worker with
  | none => ([], .ok none)
  | some w =>
    let isProductionDeploy := isProduction branch c.production_branch
    if !isProductionDeploy && (w.deploy_previews == some false) then
      ([], .ok none)
    else
      let workerName := getWorkerName c.name branch c.production_branch
      let buildEvents := workerBuildEvents w workingDir
      if jsTruthyOptStr w.build_command && !env.buildOk then
        (buildEvents, .error "build failed")
      else
        let scriptPath := workingDir ++ "/" ++ w.main
        match env.readResult with
        | .error e => (buildEvents ++ [.readScript scriptPath], .error e)
        | .ok content =>
          let mainModule := basename w.main
          let metadata : WorkerMetadata :=
            { main_module := mainModule
              compatibility_date := w.compatibility_date
              compatibility_flags := w.compatibility_flags.getD []
              bindings := buildBindings w.bindings secrets }
          let workerUrl :=
            "https://" ++ workerName ++ "." ++ env.subdomain ++ ".workers.dev"
          (buildEvents
             ++ [.readScript scriptPath,
                 .upload workerName
                   { account_id := accountId, metadata := metadata
                     fileName := mainModule, fileContent := content },
                 .getSubdomain],
           .ok (some { workerName := workerName, workerUrl := workerUrl }))

/-- C8: with a worker configured, `deploy_previews` explicitly `false` and a
branch other than the production branch, `syncWorker` returns the skip
outcome with an empty trace: no build, no file read, no upload. -/
theorem syncWorker_skip_preview_disabled (accountId : String)
    (c : CloudflareConfig) (branch : String)
    (secrets : Option (List (String × JsVal))) (workingDir : String)
    (env : WorkerEnv) (w : WorkerCfg) (hw : c.worker = some w)
    (hp : w.deploy_previews = some false) (hb : branch ≠ c.production_branch) :
    syncWorker accountId c branch secrets workingDir env = ([], WorkerOutcome.ok none) := by
  simp [syncWorker, hw, hp, isProduction, hb]

/-- Witness for C8: the test scenario `deploy_previews=false`, branch
`feature/auth`, production branch `main`. -/
theorem syncWorker_skip_preview_disabled_witness :
    syncWorker "account-id"
        { examplePagesConfig with
          name := "my-app"
          worker := some { name := some "my-worker", main := "worker/worker.js"
                           build_command := none, compatibility_date := "2024-01-01"
                           compatibility_flags := none, deploy_previews := some false
                           bindings := none } }
        "feature/auth" none "/working"
        { buildOk := true, readResult := .ok "x", subdomain := "myaccount" } =
      ([], WorkerOutcome.ok none) :=
  syncWorker_skip_preview_disabled "account-id" _ "feature/auth" none "/working" _
    _ rfl rfl (by decide)

/-- A worker configuration declaring its own base name `my-worker`. -/
def cexWorkerCfg : WorkerCfg :=
  { name := some "my-worker"
    main := "worker/worker.js"
    build_command := none
    compatibility_date := "2024-01-01"
    compatibility_flags := none
    deploy_previews := none
    bindings := none }

/-- A full configuration whose project display name `my-app` differs from
the declared worker base name `my-worker`. -/
def cexConfig : CloudflareConfig :=
  { name := "my-app"
    production_branch := "main"
    repo := { owner := "myorg", name := "myrepo" }
    build := none
    preview := none
    worker := some cexWorkerCfg }

/-- A benign environment for the worker publication: build succeeds, the
entry point reads as `script`, the account subdomain is `myaccount`. -/
def cexEnv : WorkerEnv :=
  { buildOk := true, readResult := .ok "script", subdomain := "myaccount" }

/-- The upload arguments `syncWorker` produces for `cexConfig` on `main`. -/
def cexUploadArgs : UploadArgs :=
  { account_id := "account-id"
    metadata := { main_module := "worker.js"
                  compatibility_date := "2024-01-01"
                  compatibility_flags := []
                  bindings := [] }
    fileName := "worker.js"
    fileContent := "script" }

theorem upload_not_mem_workerBuildEvents (w : WorkerCfg) (d n : String)
    (a : UploadArgs) : WorkerEvent.upload n a ∉ workerBuildEvents w d := by
  unfold workerBuildEvents
  split <;> simp

/-- C2 (counterexample): on the production branch, with the artifact's base
name declared as `my-worker` and the project display name `my-app`,
`syncWorker` uploads the script under `my-app` — the declared artifact base
name is not consulted, so the identity is not derived from it. -/
theorem syncWorker_ignores_declared_worker_name :
    cexConfig.worker = some cexWorkerCfg
    ∧ cexWorkerCfg.name = some "my-worker"
    ∧ (syncWorker "account-id" cexConfig "main" none "/working" cexEnv).1 =
        [WorkerEvent.readScript "/working/worker/worker.js",
         WorkerEvent.upload "my-app" cexUploadArgs,
         WorkerEvent.getSubdomain]
    ∧ ("my-app" : String) ≠ "my-worker" := by
  refine ⟨rfl, rfl, by decide, by decide⟩

/-- C2 (amended): every script upload issued by `syncWorker` is named
`getWorkerName(config.name, branch, config.production_branch)` — the shared
project display name plus the branch; the artifact configuration's own
`name` field is never consulted. -/
theorem syncWorker_upload_name_from_project_name (accountId : String)
    (c : CloudflareConfig) (branch : String)
    (secrets : Option (List (String × JsVal))) (workingDir : String)
    (env : WorkerEnv) (n : String) (args : UploadArgs)
    (h : WorkerEvent.upload n args ∈ (syncWorker accountId c branch secrets workingDir env).1) :
    n = getWorkerName c.name branch c.production_branch := by
  cases hw : c.worker with
  | none => simp [syncWorker, hw] at h
  | some w =>
    by_cases hskip :
        (!isProduction branch c.production_branch && (w.deploy_previews == some false)) = true
    · simp [syncWorker, hw, hskip] at h
    · by_cases hbf : (jsTruthyOptStr w.build_command && !env.buildOk) = true
      · simp [syncWorker, hw, hskip, hbf] at h
        exact absurd h (upload_not_mem_workerBuildEvents w workingDir n args)
      · cases hr : env.readResult with
        | error e =>
          have hmem : WorkerEvent.upload n args ∈
              workerBuildEvents w workingDir
                ++ [WorkerEvent.readScript (workingDir ++ "/" ++ w.main)] := by
            simpa [syncWorker, hw, hskip, hbf, hr] using h
          rw [List.mem_append] at hmem
          rcases hmem with h1 | h1
          · exact absurd h1 (upload_not_mem_workerBuildEvents w workingDir n args)
          · simp at h1
        | ok content =>
          have hmem : WorkerEvent.upload n args ∈
              workerBuildEvents w workingDir
                ++ [WorkerEvent.readScript (workingDir ++ "/" ++ w.main),
                    WorkerEvent.upload
                      (getWorkerName c.name branch c.production_branch)
                      { account_id := accountId
                        metadata :=
                          { main_module := basename w.main
                            compatibility_date := w.compatibility_date
                            compatibility_flags := w.compatibility_flags.getD []
                            bindings := buildBindings w.bindings secrets }
                        fileName := basename w.main, fileContent := content },
                    WorkerEvent.getSubdomain] := by
            simpa [syncWorker, hw, hskip, hbf, hr] using h
          rw [List.mem_append] at hmem
          rcases hmem with h1 | h1
          · exact absurd h1 (upload_not_mem_workerBuildEvents w workingDir n args)
          · simp at h1
            exact h1.1

/-- Witness for the amended C2: the upload observed in the counterexample
scenario is indeed named from the project display name. -/
theorem syncWorker_upload_name_from_project_name_witness :
    ("my-app" : String) = getWorkerName cexConfig.name "main" cexConfig.production_branch :=
  syncWorker_upload_name_from_project_name "account-id" cexConfig "main" none
    "/working" cexEnv "my-app" cexUploadArgs (by decide)
